import Mathlib

/-!
Shallow embedding of the front end of the C-Rust repository:
the tokenizer (`src/lexer.rs`, `Tokenizer::tokenize`) and the
recursive-descent parser (`src/parser.rs`, `Parser`).

Modelling conventions:
* The character source (a peekable `Chars` iterator in Rust) is a
  `List Char`; each operation returns the produced value together with the
  remaining characters.
* Rust's Unicode character classes (`is_whitespace`, `is_alphabetic`,
  `is_alphanumeric`, `is_numeric`) are modelled by Lean's ASCII classifiers
  (`Char.isWhitespace`, `Char.isAlpha`, `Char.isAlphanum`, `Char.isDigit`);
  every input considered by the specification is ASCII, where the two agree.
* `f64` literal values are modelled as exact rationals (`ℚ`): the scanned
  buffer is always a digit/decimal-point run, for which Rust's
  `str::parse::<f64>` succeeds, and the decimal value of such a run is an
  exact non-negative rational (`parseDecimal`).
* A Rust `panic!`/`.expect` is an explicit `panic`/`error` result value;
  a Rust `Option::None` returned by a parsing function is a `fail` result.
-/

/-- `Token` from `src/lexer.rs` (`Eof`, `Def`, `Extern`, `Identifier`,
`Number`, `Other`).  The `Number` payload is modelled as `ℚ` (see above). -/
inductive Token where
  | Eof : Token
  | Def : Token
  | Extern : Token
  | Identifier (name : String) : Token
  | Number (value : ℚ) : Token
  | Other (s : String) : Token
deriving DecidableEq

/-- Result of `Tokenizer::tokenize`: either a token with the remaining
characters, or a Rust `panic!` carrying its message. -/
inductive TokResult where
  | ok (t : Token) (rest : List Char) : TokResult
  | panic (msg : String) : TokResult
deriving DecidableEq

/-- Inner loop of the alphabetic branch of `tokenize` (lexer.rs lines
34-41): greedily append alphanumeric characters to the buffer (the `token`
string, modelled as its character list). -/
def takeAlnum : List Char → List Char → List Char × List Char
  | [], buf => (buf, [])
  | c :: cs, buf =>
    if c.isAlphanum then takeAlnum cs (buf ++ [c]) else (buf, c :: cs)

/-- Inner loop of the numeric branch of `tokenize` (lexer.rs lines 48-58):
before consuming, `panic!("Multiple decimals")` if the buffer already
contains `'.'` and the next character is `'.'`; then consume digits and
decimal points greedily. -/
def takeNum : List Char → List Char → Except String (List Char × List Char)
  | [], buf => .ok (buf, [])
  | c :: cs, buf =>
    if buf.contains '.' && c == '.' then .error "Multiple decimals"
    else if c.isDigit || c == '.' then takeNum cs (buf ++ [c])
    else .ok (buf, c :: cs)

/-- Numeric value of an ASCII digit character. -/
def digitVal (c : Char) : ℕ := c.toNat - '0'.toNat

/-- Value of a digit string read left to right in base 10. -/
def natOfDigits (cs : List Char) : ℕ :=
  cs.foldl (fun n c => 10 * n + digitVal c) 0

/-- Exact rational value of a decimal literal buffer (the model of
`token.parse::<f64>()` on the digit/decimal-point runs produced by the
numeric scan): for a buffer `a.b` the value is the digit string `ab`
divided by `10 ^ |b|`; a buffer with no decimal point is its digit value.
`Rat.divInt` is used so the value computes by kernel reduction. -/
def parseDecimal (s : List Char) : ℚ :=
  let ip := s.takeWhile (fun c => c ≠ '.')
  match s.dropWhile (fun c => c ≠ '.') with
  | [] => (natOfDigits ip : ℚ)
  | _ :: frac => Rat.divInt (natOfDigits (ip ++ frac)) ((10 : ℤ) ^ frac.length)

/-- Outer loop of `Tokenizer::tokenize` (lexer.rs lines 28-79).  Skips
whitespace, scans keyword/identifier, numeric literal (panicking on a
second decimal point), skips `#` comments to end of line, returns any
other single character as `Other`, and returns `Eof` when the source is
exhausted.  The `#` comment loop (lexer.rs lines 64-71) consumes every
character up to but not including the end-of-line character, then the
outer loop consumes that newline as whitespace; it is modelled by the
`inComment` mode flag so the recursion is structural on the character
list, consuming exactly the same characters as the source's inner loop. -/
def tokenizeAux : Bool → List Char → TokResult
  | _, [] => .ok .Eof []
  | true, c :: rest =>
    -- at the end-of-line character the source's inner loop breaks without
    -- consuming it; the outer loop then consumes it as whitespace
    if c = '\r' || c = '\n' then tokenizeAux false rest else tokenizeAux true rest
  | false, c :: rest =>
    if c.isWhitespace then
      tokenizeAux false rest
    else if c.isAlpha then
      match takeAlnum (c :: rest) [] with
      | (buf, rest') =>
        match String.mk buf with
        | "def" => .ok .Def rest'
        | "extern" => .ok .Extern rest'
        | token => .ok (.Identifier token) rest'
    else if c.isDigit then
      match takeNum (c :: rest) [] with
      | .error msg => .panic msg
      | .ok (buf, rest') => .ok (.Number (parseDecimal buf)) rest'
    else if c = '#' then
      tokenizeAux true rest
    else
      .ok (.Other (String.singleton c)) rest

/-- `Tokenizer::tokenize`, starting outside any comment. -/
def tokenize (cs : List Char) : TokResult := tokenizeAux false cs

/-- `Operator` from `src/parser.rs` (lines 6-11). -/
inductive Operator where
  | Plus : Operator
  | Minus : Operator
  | Multiply : Operator
  | Divide : Operator
deriving DecidableEq

/-- `Prototype` from `src/parser.rs` (lines 13-17). -/
structure Prototype where
  name : String
  args : List String
deriving DecidableEq

/-- `Expression` from `src/parser.rs` (lines 19-33). -/
inductive Expression where
  | NumberExpression (value : ℚ) : Expression
  | VariableExpression (name : String) : Expression
  | BinaryExpression (operator : Operator) (lhs rhs : Expression) : Expression
  | CallExpression (callee : String) (args : List Expression) : Expression
  | Null : Expression

/-- `Function` from `src/parser.rs` (lines 41-45). -/
structure Function where
  prototype : Prototype
  body : Expression

/-- `Parser` from `src/parser.rs` (lines 47-51): the one-token lookahead
`current_token` plus the tokenizer state (the remaining characters). -/
structure Parser where
  current_token : Token
  rest : List Char
deriving DecidableEq

/-- Result of a Rust parsing method: `ok` models `Some(value)` with the
mutated parser, `fail` models `None` with the mutated parser, and `panic`
models a Rust `panic!`/`.expect` abort with its message.  `nofuel` is the
out-of-fuel marker of the embedding (the mutually recursive parsing
functions take a fuel argument to make the recursion structural); every
theorem below supplies enough fuel that `nofuel` never arises. -/
inductive PResult (α : Type) where
  | ok (val : α) (p : Parser) : PResult α
  | fail (p : Parser) : PResult α
  | panic (msg : String) : PResult α
  | nofuel : PResult α
deriving DecidableEq

/-- `Parser::get_next_token` (parser.rs lines 62-65): run the tokenizer on
the remaining characters and overwrite `current_token`; a tokenizer panic
aborts the process. -/
def getNextToken (p : Parser) : Except String Parser :=
  match tokenize p.rest with
  | .ok t rest' => .ok ⟨t, rest'⟩
  | .panic msg => .error msg

/-- `Parser::new` (parser.rs lines 54-61): tokenize the first token. -/
def Parser.new (string : String) : Except String Parser :=
  match tokenize string.toList with
  | .ok t rest' => .ok ⟨t, rest'⟩
  | .panic msg => .error msg

/-- `Parser::operator` (parser.rs lines 77-85). -/
def operator (token : String) : Option Operator :=
  match token with
  | "+" => some .Plus
  | "-" => some .Minus
  | "/" => some .Divide
  | "*" => some .Multiply
  | _ => none

/-- The precedence table built in `Parser::get_token_precedence`
(parser.rs lines 88-93); it is total on `Operator`, so the Rust
`HashMap::get` always returns `Some`. -/
def token_precedence : Operator → ℕ
  | .Plus => 20
  | .Minus => 20
  | .Divide => 30
  | .Multiply => 30

/-- `Parser::get_token_precedence` (parser.rs lines 87-101): when
`current_token` is `Other(token)` the code runs
`operator(token).expect("Expected an operator")`, a `panic!` when `token`
is not one of `+ - * /` (modelled as `.error`); otherwise the precedence
is looked up.  Any non-`Other` token falls through to `0`. -/
def get_token_precedence (p : Parser) : Except String ℕ :=
  match p.current_token with
  | .Other token =>
    match operator token with
    | some op => .ok (token_precedence op)
    | none => .error "Expected an operator"
  | _ => .ok 0

/-- `Parser::parse_number_expression` (parser.rs lines 67-75). -/
def parse_number_expression (p : Parser) : PResult Expression :=
  match p.current_token with
  | .Number value =>
    match getNextToken p with
    | .ok p1 => .ok (.NumberExpression value) p1
    | .error msg => .panic msg
  | _ => .fail p

mutual

/-- `Parser::parse_primary` (parser.rs lines 237-250): dispatch on the
current token; a non-`(` `Other` token or any other token fails. -/
def parse_primary (fuel : ℕ) (p : Parser) : PResult Expression :=
  match fuel with
  | 0 => .nofuel
  | fuel + 1 =>
    match p.current_token with
    | .Identifier _ => parse_identifier_expression fuel p
    | .Number _ => parse_number_expression p
    | .Other token =>
      if token = "(" then parse_parenthesis_expression fuel p else .fail p
    | _ => .fail p

/-- `Parser::parse_identifier_expression` (parser.rs lines 140-179):
consume the identifier; when the next token is an `Other` different from
`"("` the identifier is a variable reference; when it is `Other("(")`
consume it and parse the call-argument loop; when it is not an `Other`
token at all the function returns `None` (the `else` branch at line 174). -/
def parse_identifier_expression (fuel : ℕ) (p : Parser) : PResult Expression :=
  match fuel with
  | 0 => .nofuel
  | fuel + 1 =>
    match p.current_token with
    | .Identifier identifier =>
      match getNextToken p with
      | .error msg => .panic msg
      | .ok p1 =>
        match p1.current_token with
        | .Other open_paren =>
          if open_paren ≠ "(" then .ok (.VariableExpression identifier) p1
          else
            match getNextToken p1 with
            | .error msg => .panic msg
            | .ok p2 => parse_call_args fuel identifier [] p2
        | _ => .fail p1
    | _ => .fail p

/-- The argument loop of `parse_identifier_expression` (parser.rs lines
151-172): parse one expression per iteration; after it, an `Other(")")`
breaks the loop (and the `)` is consumed after it), an `Other` that is
neither `")"` nor `","` returns `None`, and any token that is not an
`Other` at all skips the checks, is consumed by the unconditional
`get_next_token()` at line 166, and the loop continues. -/
def parse_call_args (fuel : ℕ) (identifier : String) (args : List Expression)
    (p : Parser) : PResult Expression :=
  match fuel with
  | 0 => .nofuel
  | fuel + 1 =>
    match parse_expression fuel p with
    | .fail p1 => .fail p1
    | .panic msg => .panic msg
    | .nofuel => .nofuel
    | .ok parsed_arg p1 =>
      let args1 := args ++ [parsed_arg]
      match p1.current_token with
      | .Other token =>
        if token = ")" then
          match getNextToken p1 with
          | .error msg => .panic msg
          | .ok p2 => .ok (.CallExpression identifier args1) p2
        else if token ≠ "," then .fail p1
        else
          match getNextToken p1 with
          | .error msg => .panic msg
          | .ok p2 => parse_call_args fuel identifier args1 p2
      | _ =>
        match getNextToken p1 with
        | .error msg => .panic msg
        | .ok p2 => parse_call_args fuel identifier args1 p2

/-- `Parser::parse_binary_op_rhs` (parser.rs lines 103-138).  The body of
the Rust `loop` unconditionally returns on every path (either `lhs`, or
`None`, or the combined `BinaryExpression` at line 132), so the loop runs
at most one iteration and is modelled by a straight-line body; the only
repetition is the explicit recursive call at line 127 for a strictly
tighter-binding next operator. -/
def parse_binary_op_rhs (fuel : ℕ) (expression_precedence : ℕ)
    (lhs : Expression) (p : Parser) : PResult Expression :=
  match fuel with
  | 0 => .nofuel
  | fuel + 1 =>
    match get_token_precedence p with
    | .error msg => .panic msg
    | .ok tokenPrecedence =>
      if tokenPrecedence < expression_precedence then .ok lhs p
      else
        match operator (match p.current_token with
                        | .Other token => token
                        | _ => "") with
        | none => .panic "Expected an Operator"
        | some binary_operation =>
          match getNextToken p with
          | .error msg => .panic msg
          | .ok p1 =>
            match parse_primary fuel p1 with
            | .fail p2 => .fail p2
            | .panic msg => .panic msg
            | .nofuel => .nofuel
            | .ok rhs p2 =>
              match get_token_precedence p2 with
              | .error msg => .panic msg
              | .ok nextPrecedence =>
                if tokenPrecedence < nextPrecedence then
                  match parse_binary_op_rhs fuel (tokenPrecedence + 1) rhs p2 with
                  | .fail p3 => .fail p3
                  | .panic msg => .panic msg
                  | .nofuel => .nofuel
                  | .ok rhs1 p3 =>
                    .ok (.BinaryExpression binary_operation lhs rhs1) p3
                else .ok (.BinaryExpression binary_operation lhs rhs) p2

/-- `Parser::parse_expression` (parser.rs lines 252-258): a primary
followed by `parse_binary_op_rhs(1, lhs)`. -/
def parse_expression (fuel : ℕ) (p : Parser) : PResult Expression :=
  match fuel with
  | 0 => .nofuel
  | fuel + 1 =>
    match parse_primary fuel p with
    | .fail p1 => .fail p1
    | .panic msg => .panic msg
    | .nofuel => .nofuel
    | .ok lhs p1 => parse_binary_op_rhs fuel 1 lhs p1

/-- `Parser::parse_parenthesis_expression` (parser.rs lines 260-280):
consume the opening token, parse an expression; then only when the current
token is an `Other` is it required to be `")"` (and consumed) — any
non-`Other` token (such as `Eof`) skips the check and the inner expression
is returned as a success. -/
def parse_parenthesis_expression (fuel : ℕ) (p : Parser) : PResult Expression :=
  match fuel with
  | 0 => .nofuel
  | fuel + 1 =>
    match p.current_token with
    | .Other _ =>
      match getNextToken p with
      | .error msg => .panic msg
      | .ok p1 =>
        match parse_expression fuel p1 with
        | .fail p2 => .fail p2
        | .panic msg => .panic msg
        | .nofuel => .nofuel
        | .ok expression p2 =>
          match p2.current_token with
          | .Other close_paren =>
            if close_paren ≠ ")" then .fail p2
            else
              match getNextToken p2 with
              | .error msg => .panic msg
              | .ok p3 => .ok expression p3
          | _ => .ok expression p2
    | _ => .fail p

end

/-- The `while let` parameter loop of `Parser::parse_prototype`
(parser.rs lines 190-192): `get_next_token()` first, then push the name
while the new token is an `Identifier`; stops at the first non-identifier
token, which is left as `current_token`. -/
def proto_args (fuel : ℕ) (argument_names : List String)
    (p : Parser) : PResult (List String) :=
  match fuel with
  | 0 => .nofuel
  | fuel + 1 =>
    match getNextToken p with
    | .error msg => .panic msg
    | .ok p1 =>
      match p1.current_token with
      | .Identifier arg_identifier =>
        proto_args fuel (argument_names ++ [arg_identifier]) p1
      | _ => .ok argument_names p1

/-- `Parser::parse_prototype` (parser.rs lines 181-208): function name
identifier, `Other("(")`, the parameter loop; then only when the token
after the parameters is an `Other` is it required to be `")"` (and
consumed) — a non-`Other` token (such as `Eof`) skips that check and the
prototype is returned as a success (the fall-through to line 199). -/
def parse_prototype (fuel : ℕ) (p : Parser) : PResult Prototype :=
  match p.current_token with
  | .Identifier function_name =>
    match getNextToken p with
    | .error msg => .panic msg
    | .ok p1 =>
      match p1.current_token with
      | .Other token =>
        if token ≠ "(" then .fail p1
        else
          match proto_args fuel [] p1 with
          | .fail p2 => .fail p2
          | .panic msg => .panic msg
          | .nofuel => .nofuel
          | .ok argument_names p2 =>
            match p2.current_token with
            | .Other end_token =>
              if end_token ≠ ")" then .fail p2
              else
                match getNextToken p2 with
                | .error msg => .panic msg
                | .ok p3 => .ok ⟨function_name, argument_names⟩ p3
            | _ => .ok ⟨function_name, argument_names⟩ p2
      | _ => .fail p1
  | _ => .fail p

/-- Run `Parser::new` then `parse_expression` on a source string. -/
def runParseExpression (fuel : ℕ) (string : String) : PResult Expression :=
  match Parser.new string with
  | .error msg => .panic msg
  | .ok p => parse_expression fuel p

/-- Run `Parser::new` then `parse_identifier_expression` on a source string. -/
def runParseIdentifierExpression (fuel : ℕ) (string : String) : PResult Expression :=
  match Parser.new string with
  | .error msg => .panic msg
  | .ok p => parse_identifier_expression fuel p

/-- Run `Parser::new` then `parse_prototype` on a source string. -/
def runParsePrototype (fuel : ℕ) (string : String) : PResult Prototype :=
  match Parser.new string with
  | .error msg => .panic msg
  | .ok p => parse_prototype fuel p

theorem parseDecimal_nonneg (s : List Char) : 0 ≤ parseDecimal s := by
  simp only [parseDecimal]
  split
  · exact Nat.cast_nonneg _
  · exact Rat.divInt_nonneg (Int.natCast_nonneg _) (pow_nonneg (by norm_num) _)

theorem tokenizeAux_eof_rest (b : Bool) (s : List Char) :
    ∀ t : List Char, tokenizeAux b s = .ok .Eof t → t = [] := by
  induction s generalizing b with
  | nil =>
    intro t h
    cases b <;> simp only [tokenizeAux, TokResult.ok.injEq] at h <;> exact h.2.symm
  | cons c cs ih =>
    intro t h
    cases b with
    | true =>
      simp only [tokenizeAux] at h
      split at h
      · exact ih false t h
      · exact ih true t h
    | false =>
      simp only [tokenizeAux] at h
      split at h
      · exact ih false t h
      · split at h
        · split at h <;> simp at h
        · split at h
          · split at h <;> simp at h
          · split at h
            · exact ih true t h
            · simp at h

theorem tokenizeAux_number_nonneg (b : Bool) (s : List Char) :
    ∀ (v : ℚ) (t : List Char), tokenizeAux b s = .ok (.Number v) t → 0 ≤ v := by
  induction s generalizing b with
  | nil => intro v t h; cases b <;> simp [tokenizeAux] at h
  | cons c cs ih =>
    intro v t h
    cases b with
    | true =>
      simp only [tokenizeAux] at h
      split at h
      · exact ih false v t h
      · exact ih true v t h
    | false =>
      simp only [tokenizeAux] at h
      split at h
      · exact ih false v t h
      · split at h
        · split at h <;> simp at h
        · split at h
          · split at h
            · simp at h
            · simp only [TokResult.ok.injEq, Token.Number.injEq] at h
              exact h.1 ▸ parseDecimal_nonneg _
          · split at h
            · exact ih true v t h
            · simp at h

/-- Claim C1: the specification states that tokenizing `"1.2.3"` returns a
`MalformedNumber` error value and never panics, while `"1.45"` tokenizes
to `NumberLiteral(1.45)`.  On the code, `"1.45"` does tokenize to the
number `29/20 = 1.45`, but `"1.2.3"` executes `panic!("Multiple decimals")`
(lexer.rs line 50), aborting the process instead of returning an error
value. -/
theorem tokenize_double_decimal_panics :
    tokenize "1.2.3".toList = .panic "Multiple decimals" ∧
    tokenize "1.45".toList = .ok (.Number (Rat.divInt 29 20)) [] ∧
    Rat.divInt 29 20 = (1.45 : ℚ) := by
  refine ⟨by decide, by decide, ?_⟩
  rw [Rat.divInt_eq_div]
  norm_num

/-- Claim C2: the specification states that parsing `"a+b-c"` yields
`BinaryExpr(Minus, BinaryExpr(Plus, a, b), c)` because the
precedence-climbing routine loops with the combined node as the new lhs.
On the code, the body of the `loop` in `parse_binary_op_rhs` returns
unconditionally (parser.rs line 132), so parsing stops after the first
combine: the result is `BinaryExpr(Plus, a, b)` with `"-c"` left
unconsumed (the final parser state still holds the `-` token). -/
theorem parse_expression_a_plus_b_minus_c :
    runParseExpression 40 "a+b-c" =
      .ok (.BinaryExpression .Plus (.VariableExpression "a") (.VariableExpression "b"))
        ⟨.Other "-", ['c']⟩ := by rfl

/-- Claim C3: the specification states that the precedence lookup returns
the fixed precedences for operator symbols and `0` for every other token,
including symbols such as `")"` and `","`, without any fatal fault.  On
the code, `get_token_precedence` runs
`operator(token).expect("Expected an operator")` on every `Other` token
(parser.rs line 95), so `")"` and `","` panic instead of yielding `0`;
the operator symbols and non-symbol tokens behave as claimed. -/
theorem get_token_precedence_panics_on_non_operator_symbol :
    get_token_precedence ⟨.Other ")", []⟩ = .error "Expected an operator" ∧
    get_token_precedence ⟨.Other ",", []⟩ = .error "Expected an operator" ∧
    get_token_precedence ⟨.Other "+", []⟩ = .ok 20 ∧
    get_token_precedence ⟨.Other "-", []⟩ = .ok 20 ∧
    get_token_precedence ⟨.Other "*", []⟩ = .ok 30 ∧
    get_token_precedence ⟨.Other "/", []⟩ = .ok 30 ∧
    get_token_precedence ⟨.Eof, []⟩ = .ok 0 :=
  ⟨rfl, rfl, rfl, rfl, rfl, rfl, rfl⟩

/-- Claim C4: the specification states that parsing `"(1+2"` (missing
close parenthesis) fails with `UnmatchedParenthesis`.  On the code,
`parse_parenthesis_expression` checks for `")"` only when the current
token is an `Other` token (parser.rs line 267); after `"(1+2"` the current
token is `Eof`, the check is skipped, and the parse succeeds, returning
`BinaryExpr(Plus, 1, 2)`. -/
theorem parse_expression_accepts_unclosed_paren :
    runParseExpression 40 "(1+2" =
      .ok (.BinaryExpression .Plus (.NumberExpression 1) (.NumberExpression 2))
        ⟨.Eof, []⟩ := by rfl

/-- Claim C5: the specification states that parsing `"foo(1, 2)"` yields
`CallExpr("foo", [1, 2])` and `"foo(1 2)"` fails with
`ExpectedArgumentSeparatorOrClose`, in both cases without aborting.  On
the code, parsing the first argument of `"foo(1, 2)"` leaves `","` as the
current token and `parse_binary_op_rhs` asks for its precedence, which
panics with `"Expected an operator"` (parser.rs line 95): the process
aborts.  (`"foo(1 2)"` returns `None`, an untyped failure.) -/
theorem parse_expression_call_with_comma_panics :
    runParseExpression 40 "foo(1, 2)" = .panic "Expected an operator" ∧
    runParseExpression 40 "foo(1 2)" = .fail ⟨.Other ")", []⟩ :=
  ⟨rfl, rfl⟩

/-- Claim C6: the specification states that an identifier whose following
token is not `Symbol("(")` — including `EndOfInput`, a number, or another
identifier — parses to `VariableExpr`.  On the code, the variable case is
reached only through `if let Token::Other(..)` (parser.rs line 144): when
the following token is not an `Other` token at all, the `else` branch at
line 174 returns `None`.  So `"a"` (followed by end of input), `"a 1"`
(followed by a number) and `"a b"` (followed by an identifier) all fail
instead of producing `VariableExpr("a")`. -/
theorem parse_identifier_expression_fails_without_symbol_follower :
    runParseIdentifierExpression 40 "a" = .fail ⟨.Eof, []⟩ ∧
    runParseIdentifierExpression 40 "a 1" = .fail ⟨.Number 1, []⟩ ∧
    runParseIdentifierExpression 40 "a b" = .fail ⟨.Identifier "b", []⟩ ∧
    runParseIdentifierExpression 40 "a+" =
      .ok (.VariableExpression "a") ⟨.Other "+", []⟩ :=
  ⟨rfl, rfl, rfl, rfl⟩

/-- Claim C7: the specification states that `parse_prototype` succeeds
exactly on `Identifier "(" Identifier* ")"` and that any deviation fails.
On the code, the `")"` check runs only when the token after the parameters
is an `Other` token (parser.rs line 193); otherwise control falls through
to `Some(Prototype ...)` at line 199.  So `"foo("` (no `")"`, end of
input) succeeds with an empty parameter list, and `"foo(a 1)"` (a
non-identifier parameter) succeeds with parameters `["a"]`, leaving the
`1` as the current token.  A well-formed prototype `"foo(a b)"` also
succeeds, as claimed. -/
theorem parse_prototype_accepts_missing_close_paren :
    runParsePrototype 40 "foo(" = .ok ⟨"foo", []⟩ ⟨.Eof, []⟩ ∧
    runParsePrototype 40 "foo(a 1)" = .ok ⟨"foo", ["a"]⟩ ⟨.Number 1, [')']⟩ ∧
    runParsePrototype 40 "foo(a b)" = .ok ⟨"foo", ["a", "b"]⟩ ⟨.Eof, []⟩ :=
  ⟨rfl, rfl, rfl⟩

/-- Claim C8: the specification states that parsing `"a+b*c"` yields
`BinaryExpr(Plus, a, BinaryExpr(Multiply, b, c))`.  On the code, the
tighter-binding `*` does trigger the recursive
`parse_binary_op_rhs(token_precedence + 1, rhs)` call, but that call
parses the trailing identifier `c` with `parse_identifier_expression`,
which returns `None` when the token after the identifier is `Eof`
(parser.rs line 174).  The whole parse therefore fails instead of
producing the claimed tree. -/
theorem parse_expression_a_plus_b_times_c_fails :
    runParseExpression 40 "a+b*c" = .fail ⟨.Eof, []⟩ := by rfl

/-- Claim C9: once `tokenize` has returned `Eof`, every later call on the
same tokenizer state returns `Eof` again: `Eof` is only produced when the
character source is exhausted, so the remaining source is empty and the
next call returns `Eof` with the same (empty) remainder. -/
theorem tokenize_eof_stable (s t : List Char) (h : tokenize s = .ok .Eof t) :
    tokenize t = .ok .Eof t := by
  have ht : t = [] := tokenizeAux_eof_rest false s t h
  subst ht
  rfl

/-- Witness for `tokenize_eof_stable` at the one-space input. -/
theorem tokenize_eof_stable_witness : tokenize [] = .ok .Eof [] :=
  tokenize_eof_stable [' '] [] (by decide)

/-- Claim C10: every `Number` token the tokenizer returns carries a
non-negative value: the numeric scan admits only digits and decimal
points, so the parsed literal is a quotient of non-negative integers.
(In this exact-rational model of `f64` no NaN exists; the scan can never
admit a minus sign.) -/
theorem tokenize_number_nonneg (s : List Char) (v : ℚ) (t : List Char)
    (h : tokenize s = .ok (.Number v) t) : 0 ≤ v :=
  tokenizeAux_number_nonneg false s v t h

/-- Witness for `tokenize_number_nonneg` at the input `"1.45"`. -/
theorem tokenize_number_nonneg_witness : (0 : ℚ) ≤ Rat.divInt 29 20 :=
  tokenize_number_nonneg "1.45".toList (Rat.divInt 29 20) [] (by decide)
